import Mathlib

/-!
Verification of the raecer-bot core: the PRO-CTCAE symptom mapper
(`pro_ctcae_mapper.py`) and the session store / conversation routes
(`session_manager.py`, `api_server.py`), shallowly embedded in Lean.

Strings are modelled as lists of character codes (`List Nat`); `strN`
converts a Lean string literal to that representation.  Timestamps are
explicit integer parameters (`now`), the Redis-backed store is an
association list from session id to session record, and the external
model collaborator is an oracle function parameter.
-/

/-- Character-code representation of a string literal. -/
def strN (s : String) : List Nat := s.data.map Char.toNat

/-- ASCII lower-casing of one character code (Python `str.lower` on ASCII). -/
def lowerC (c : Nat) : Nat := if 65 ≤ c ∧ c ≤ 90 then c + 32 else c

/-- Lower-casing of a whole string (`str.lower`). -/
def lowerL (s : List Nat) : List Nat := s.map lowerC

/-- Whitespace test used by Python `str.strip`. -/
def isSpaceC (c : Nat) : Bool :=
  decide (c = 32 ∨ c = 9 ∨ c = 10 ∨ c = 11 ∨ c = 12 ∨ c = 13)

/-- `str.strip`: drop whitespace from both ends. -/
def trimL (s : List Nat) : List Nat :=
  ((s.dropWhile isSpaceC).reverse.dropWhile isSpaceC).reverse

/-- Python substring test `pat in s` (contiguous occurrence anywhere). -/
def isSubL (pat : List Nat) : List Nat → Bool
  | [] => decide (pat = [])
  | c :: rest => pat.isPrefixOf (c :: rest) || isSubL pat rest

/-- Association-list lookup (models Python `dict.get` / `in`). -/
def alookup {κ α : Type} [DecidableEq κ] : List (κ × α) → κ → Option α
  | [], _ => none
  | (k, v) :: rest, key => if k = key then some v else alookup rest key

/-- PRO-CTCAE attribute kinds (`ProCtcaeItem.attributes` strings). -/
inductive Attr where
  | severity
  | frequency
  | interference
  | presence
deriving DecidableEq

/-- One PRO-CTCAE item of the taxonomy (`ProCtcaeItem`). -/
structure ProCtcaeItem where
  symptom_term : List Nat
  code : List Nat
  attributes : List Attr
  description : List Nat
deriving DecidableEq

/-- One patient entry (`ProCtcaeEntry`); unset dataclass fields are `none`. -/
structure ProCtcaeEntry where
  symptom_term : List Nat
  code : List Nat
  severity : Option Nat := none
  frequency : Option Nat := none
  interference : Option Nat := none
  presence : Option Bool := none
  raw_text : Option (List Nat) := none
deriving DecidableEq

/-- The `self.pro_ctcae_items` taxonomy table, in source order. -/
def pro_ctcae_items : List (List Nat × ProCtcaeItem) :=
  [ (strN "hives",
     { symptom_term := strN "Hives", code := strN "PRO-CTCAE_hives",
       attributes := [.presence], description := strN "Hives (urticaria)" }),
    (strN "itching",
     { symptom_term := strN "Itching", code := strN "PRO-CTCAE_itching",
       attributes := [.severity], description := strN "Pruritus (itching)" }),
    (strN "rash",
     { symptom_term := strN "Rash", code := strN "PRO-CTCAE_rash",
       attributes := [.presence], description := strN "Skin rash" }),
    (strN "skin_redness",
     { symptom_term := strN "Skin redness", code := strN "PRO-CTCAE_erythema",
       attributes := [.presence], description := strN "Erythema or skin redness" }),
    (strN "shortness_of_breath",
     { symptom_term := strN "Shortness of breath", code := strN "PRO-CTCAE_dyspnea",
       attributes := [.severity, .interference],
       description := strN "Dyspnea (shortness of breath)" }),
    (strN "wheezing",
     { symptom_term := strN "Wheezing", code := strN "PRO-CTCAE_wheezing",
       attributes := [.severity], description := strN "Wheezing" }),
    (strN "cough",
     { symptom_term := strN "Cough", code := strN "PRO-CTCAE_cough",
       attributes := [.severity, .interference], description := strN "Cough" }),
    (strN "swelling",
     { symptom_term := strN "Swelling", code := strN "PRO-CTCAE_swelling",
       attributes := [.frequency, .severity, .interference],
       description := strN "Edema (swelling)" }),
    (strN "heart_palpitations",
     { symptom_term := strN "Heart palpitations", code := strN "PRO-CTCAE_palpitations",
       attributes := [.frequency, .severity], description := strN "Heart palpitations" }),
    (strN "nausea",
     { symptom_term := strN "Nausea", code := strN "PRO-CTCAE_nausea",
       attributes := [.frequency, .severity], description := strN "Nausea" }),
    (strN "vomiting",
     { symptom_term := strN "Vomiting", code := strN "PRO-CTCAE_vomiting",
       attributes := [.frequency, .severity], description := strN "Vomiting" }),
    (strN "chills",
     { symptom_term := strN "Chills", code := strN "PRO-CTCAE_chills",
       attributes := [.frequency, .severity], description := strN "Chills" }),
    (strN "dizziness",
     { symptom_term := strN "Dizziness", code := strN "PRO-CTCAE_dizziness",
       attributes := [.severity, .interference], description := strN "Dizziness" }),
    (strN "headache",
     { symptom_term := strN "Headache", code := strN "PRO-CTCAE_headache",
       attributes := [.frequency, .severity, .interference],
       description := strN "Headache" }),
    (strN "anxiety",
     { symptom_term := strN "Anxious", code := strN "PRO-CTCAE_anxiety",
       attributes := [.frequency, .severity, .interference],
       description := strN "Anxiety" }),
    (strN "chest_tightness",
     { symptom_term := strN "Chest pain", code := strN "PRO-CTCAE_chest_pain",
       attributes := [.frequency, .severity, .interference],
       description := strN "Chest tightness or pain" }) ]

/-- The `self.symptom_mappings` alias table, in source order. -/
def symptom_mappings : List (List Nat × List Nat) :=
  [ (strN "hives", strN "hives"),
    (strN "urticaria", strN "hives"),
    (strN "welts", strN "hives"),
    (strN "itching", strN "itching"),
    (strN "itchy", strN "itching"),
    (strN "pruritus", strN "itching"),
    (strN "itch", strN "itching"),
    (strN "swelling", strN "swelling"),
    (strN "edema", strN "swelling"),
    (strN "puffiness", strN "swelling"),
    (strN "angioedema", strN "swelling"),
    (strN "facial swelling", strN "swelling"),
    (strN "throat swelling", strN "swelling"),
    (strN "shortness of breath", strN "shortness_of_breath"),
    (strN "difficulty breathing", strN "shortness_of_breath"),
    (strN "breathlessness", strN "shortness_of_breath"),
    (strN "dyspnea", strN "shortness_of_breath"),
    (strN "trouble breathing", strN "shortness_of_breath"),
    (strN "wheezing", strN "wheezing"),
    (strN "wheeze", strN "wheezing"),
    (strN "rash", strN "rash"),
    (strN "skin reaction", strN "rash"),
    (strN "eruption", strN "rash"),
    (strN "nausea", strN "nausea"),
    (strN "vomiting", strN "vomiting"),
    (strN "dizziness", strN "dizziness"),
    (strN "dizzy", strN "dizziness"),
    (strN "headache", strN "headache"),
    (strN "chest tightness", strN "chest_tightness"),
    (strN "chest pain", strN "chest_tightness"),
    (strN "anxiety", strN "anxiety"),
    (strN "anxious", strN "anxiety"),
    (strN "palpitations", strN "heart_palpitations"),
    (strN "heart racing", strN "heart_palpitations") ]

/-- `normalize_symptom`: lower-case, strip, exact alias-table lookup. -/
def normalize_symptom (symptom : List Nat) : Option (List Nat) :=
  alookup symptom_mappings (trimL (lowerL symptom))

/-- A patient summary dict: the fields of the JSON object that
`parse_patient_json` and `estimate_severity` read (absent keys are the
code's `dict.get` defaults). -/
structure PatientData where
  reported_symptoms : List (List Nat) := []
  has_previous_reaction : Bool := false
  full_summary : List Nat := []
  patient_concerns : List Nat := []
deriving DecidableEq

/-- The `severity_keywords` dict of `estimate_severity`, in source
(insertion) order. -/
def severity_keywords : List (List Nat × Nat) :=
  [ (strN "mild", 1),
    (strN "moderate", 2),
    (strN "severe", 3),
    (strN "very severe", 4),
    (strN "slight", 1),
    (strN "bad", 2),
    (strN "terrible", 3),
    (strN "extreme", 4) ]

/-- The `for keyword, level in severity_keywords.items()` loop: level of
the first keyword (in list order) occurring in the text. -/
def findKeyword : List (List Nat × Nat) → List Nat → Option Nat
  | [], _ => none
  | (k, v) :: rest, s => if isSubL k s then some v else findKeyword rest s

/-- The `critical_symptoms` list of `estimate_severity`. -/
def critical_symptoms : List (List Nat) :=
  [strN "shortness_of_breath", strN "chest_tightness", strN "throat_swelling"]

/-- `estimate_severity(symptom, context)`. -/
def estimate_severity (symptom : List Nat) (context : PatientData) : Nat :=
  match findKeyword severity_keywords (lowerL context.full_summary) with
  | some level => level
  | none =>
    if context.has_previous_reaction then
      match normalize_symptom symptom with
      | some normalized => if normalized ∈ critical_symptoms then 2 else 1
      | none => 1
    else 1

/-- The entry-construction body of the symptom loop in `parse_patient_json`:
normalize, look the canonical key up in the taxonomy, and populate the
attribute fields the item declares (`none` models skipping the loop
iteration for an unmapped or unknown symptom). -/
def entryFor (symptom : List Nat) (data : PatientData) : Option ProCtcaeEntry :=
  match normalize_symptom symptom with
  | none => none
  | some normalized =>
    match alookup pro_ctcae_items normalized with
    | none => none
    | some item =>
      let sev : Option Nat :=
        if Attr.severity ∈ item.attributes
        then some (estimate_severity symptom data) else none
      let pres : Option Bool :=
        if Attr.presence ∈ item.attributes then some true else none
      let freq : Option Nat :=
        if Attr.frequency ∈ item.attributes then some 2 else none
      let interf : Option Nat :=
        if Attr.interference ∈ item.attributes then
          match sev with
          | some sv => some (if 3 ≤ sv then 3 else if 2 ≤ sv then 2 else 1)
          | none => none
        else none
      some { symptom_term := item.symptom_term, code := item.code,
             severity := sev, frequency := freq, interference := interf,
             presence := pres, raw_text := some symptom }

/-- The `for symptom in reported_symptoms` loop, accumulating `entries`
by appending exactly as the Python code does. -/
def loopSymptoms (data : PatientData) : List (List Nat) → List ProCtcaeEntry → List ProCtcaeEntry
  | [], acc => acc
  | s :: rest, acc =>
    loopSymptoms data rest
      (match entryFor s data with
       | some e => acc ++ [e]
       | none => acc)

/-- The anxiety-trigger test on `patient_concerns`:
`concerns and "concern" in concerns.lower() and concerns.lower() != "no concerns"`. -/
def concernsTrigger (concerns : List Nat) : Bool :=
  decide (concerns ≠ []) && isSubL (strN "concern") (lowerL concerns)
    && decide (lowerL concerns ≠ strN "no concerns")

/-- The synthesized anxiety entry built from `pro_ctcae_items["anxiety"]`
(the fallback branch is unreachable: the key is in the table). -/
def anxiety_entry : ProCtcaeEntry :=
  match alookup pro_ctcae_items (strN "anxiety") with
  | some item =>
    { symptom_term := item.symptom_term, code := item.code,
      severity := some 1, frequency := some 2, interference := some 1,
      raw_text := some (strN "Patient expressed concerns") }
  | none => { symptom_term := [], code := [] }

/-- `parse_patient_json`, modelled on the already-decoded JSON summary
(file loading itself is I/O outside the core algorithm). -/
def parse_patient_json (data : PatientData) : List ProCtcaeEntry :=
  let entries := loopSymptoms data data.reported_symptoms []
  if concernsTrigger data.patient_concerns
  then entries ++ [anxiety_entry]
  else entries

/-! ## Session store (`session_manager.py`) and routes (`api_server.py`) -/

/-- Session lifecycle status strings. -/
inductive Status where
  | active
  | completed
  | error
deriving DecidableEq

/-- A `{role, content}` message. -/
structure Message where
  role : List Nat
  content : List Nat
deriving DecidableEq

/-- Serialized clinical data blobs (`patient_data` / `pro_ctcae_data`
JSON objects), abstracted as opaque serialized values. -/
abbrev PData := List Nat

/-- `ConversationSession` dataclass; timestamps are integers (seconds). -/
structure ConversationSession where
  session_id : Nat
  messages : List Message := []
  status : Status := .active
  created_at : Int := 0
  updated_at : Int := 0
  patient_data : Option PData := none
  pro_ctcae_data : Option PData := none
  error_message : Option (List Nat) := none
deriving DecidableEq

/-- The Redis keyspace of sessions, as an association list id ↦ session. -/
abbrev Store := List (Nat × ConversationSession)

/-- Redis `setex`: overwrite the key if present, else add it. -/
def aset : Store → Nat → ConversationSession → Store
  | [], id, s => [(id, s)]
  | (k, v) :: rest, id, s =>
    if k = id then (id, s) :: rest else (k, v) :: aset rest id s

/-- `SessionManager.get_session`. -/
def get_session (st : Store) (id : Nat) : Option ConversationSession :=
  alookup st id

/-- `SessionManager.add_message`: load, append, stamp `updated_at`, save. -/
def add_message (st : Store) (id : Nat) (m : Message) (now : Int) : Store × Bool :=
  match alookup st id with
  | none => (st, false)
  | some s =>
    (aset st id { s with messages := s.messages ++ [m], updated_at := now }, true)

/-- One `key=value` keyword argument of `update_session(**kwargs)`: either a
name matching one of the eight `ConversationSession` attributes, or any
other name (`unknown`), for which `hasattr` is false. -/
inductive Kwarg where
  | session_id (v : Nat)
  | messages (v : List Message)
  | status (v : Status)
  | created_at (v : Int)
  | updated_at (v : Int)
  | patient_data (v : Option PData)
  | pro_ctcae_data (v : Option PData)
  | error_message (v : Option (List Nat))
  | unknown (name : List Nat)
deriving DecidableEq

/-- The `if hasattr(session, key): setattr(session, key, value)` body. -/
def applyKwarg (s : ConversationSession) : Kwarg → ConversationSession
  | .session_id v => { s with session_id := v }
  | .messages v => { s with messages := v }
  | .status v => { s with status := v }
  | .created_at v => { s with created_at := v }
  | .updated_at v => { s with updated_at := v }
  | .patient_data v => { s with patient_data := v }
  | .pro_ctcae_data v => { s with pro_ctcae_data := v }
  | .error_message v => { s with error_message := v }
  | .unknown _ => s

/-- `SessionManager.update_session`. -/
def update_session (st : Store) (id : Nat) (kwargs : List Kwarg) (now : Int) :
    Store × Bool :=
  match alookup st id with
  | none => (st, false)
  | some s =>
    let s2 := kwargs.foldl applyKwarg s
    (aset st id { s2 with updated_at := now }, true)

/-- The deletion loop of `SessionManager.cleanup_old_sessions`, given the
precomputed cutoff time. -/
def cleanupLoop (cutoff : Int) : Store → Store × Nat
  | [] => ([], 0)
  | (k, s) :: rest =>
    let r := cleanupLoop cutoff rest
    if s.updated_at < cutoff then (r.1, r.2 + 1) else ((k, s) :: r.1, r.2)

/-- `SessionManager.cleanup_old_sessions(max_age_hours)` at time `now`:
cutoff is `now - timedelta(hours=max_age_hours)`. -/
def cleanup_old_sessions (st : Store) (max_age_hours : Nat) (now : Int) :
    Store × Nat :=
  cleanupLoop (now - (max_age_hours : Int) * 3600) st

/-- Outcome of the model collaborator call inside `send_message` /
`generate_summary`: a reply text, an empty `response.content`, or a raised
exception carrying its description. -/
inductive ModelResult where
  | reply (text : List Nat)
  | empty
  | err (e : List Nat)

/-- Responses of the `send_message` route, abstracting the HTTP payloads. -/
inductive SendResp where
  | notFound
  | invalidState (status : Status)
  | badRequest
  | noContent
  | ok (reply : List Nat) (ended : Bool) (count : Nat)
  | failure (e : List Nat)
deriving DecidableEq

/-- The `send_message` route: session lookup, `active`-status check, user
append, model call, assistant append; the exception handler marks the
session `error`.  NER extraction never touches the store and is omitted
from the state model. -/
def send_message (st : Store) (id : Nat) (body : Option (List Nat))
    (llm : List Message → ModelResult) (now : Int) : Store × SendResp :=
  match alookup st id with
  | none => (st, .notFound)
  | some s =>
    if s.status ≠ .active then (st, .invalidState s.status)
    else
      match body with
      | none => (st, .badRequest)
      | some txt =>
        let s1 := { s with messages := s.messages ++ [⟨strN "user", txt⟩],
                           updated_at := now }
        let st1 := aset st id s1
        match llm s1.messages with
        | .err e =>
          ((update_session st1 id [.status .error, .error_message (some e)] now).1,
           .failure e)
        | .empty => (st1, .noContent)
        | .reply r =>
          let s2 := { s1 with messages := s1.messages ++ [⟨strN "assistant", r⟩],
                              updated_at := now }
          (aset st1 id s2,
           .ok r (isSubL (strN "i have everything i need") (lowerL r))
             s2.messages.length)

/-- Responses of the `end_conversation` route. -/
inductive EndResp where
  | notFound
  | ok (patient_data pro_ctcae_data : Option PData)
  | failure (e : List Nat)
deriving DecidableEq

/-- The `end_conversation` route.  `gen` is `generate_summary` (the model
collaborator round-trip), returning `(patient_data, pro_ctcae_data,
error_message)`; the returned `Bool` records whether `gen` was invoked. -/
def end_conversation (st : Store) (id : Nat)
    (gen : ConversationSession → Option PData × Option PData × Option (List Nat))
    (now : Int) : Store × EndResp × Bool :=
  match alookup st id with
  | none => (st, .notFound, false)
  | some s =>
    if s.status = .completed then
      (st, .ok s.patient_data s.pro_ctcae_data, false)
    else
      let r := gen s
      match r.2.2 with
      | some e =>
        ((update_session st id [.status .error, .error_message (some e)] now).1,
         .failure e, true)
      | none =>
        ((update_session st id
            [.status .completed, .patient_data r.1, .pro_ctcae_data r.2.1] now).1,
         .ok r.1 r.2.1, true)

/-! ## Further definitions: decomposed string helpers, the spec-side
precedence table, and concrete data used in witnesses and counterexamples -/

/-- Left-trim half of `str.strip`. -/
def ltrimW (s : List Nat) : List Nat := s.dropWhile isSpaceC

/-- Right-trim half of `str.strip`. -/
def rtrimW (s : List Nat) : List Nat := (s.reverse.dropWhile isSpaceC).reverse

/-- The lookup key computed by `normalize_symptom`: `symptom.lower().strip()`. -/
def normKey (s : List Nat) : List Nat := trimL (lowerL s)

/-- Whether a keyword argument's name is an attribute of the session
dataclass (`hasattr` succeeds). -/
def isKnownKwarg : Kwarg → Bool
  | .unknown _ => false
  | _ => true

/-- Modelled from the spec: the severity-keyword precedence table of §4.2
in the spec's stated precedence order ("very severe"→4, "extreme"→4,
"severe"→3, "terrible"→3, "moderate"→2, "bad"→2, "mild"→1, "slight"→1),
used only to compare the spec's claimed resolution order against the
code's `severity_keywords` iteration order. -/
def specSeverityTable : List (List Nat × Nat) :=
  [ (strN "very severe", 4),
    (strN "extreme", 4),
    (strN "severe", 3),
    (strN "terrible", 3),
    (strN "moderate", 2),
    (strN "bad", 2),
    (strN "mild", 1),
    (strN "slight", 1) ]

/-- A context whose clinical narrative reads "very severe". -/
def ctxVerySevere : PatientData := { full_summary := strN "very severe" }

/-- A context with a prior adverse reaction and keyword-free narrative. -/
def ctxPrev : PatientData := { has_previous_reaction := true }

/-- A context with no prior reaction and keyword-free narrative. -/
def ctxNoPrev : PatientData := {}

/-- A summary reporting the same mapped symptom twice. -/
def dupRashData : PatientData := { reported_symptoms := [strN "rash", strN "rash"] }

/-- The entry the mapper builds for a reported "rash". -/
def rashEntry : ProCtcaeEntry :=
  { symptom_term := strN "Rash", code := strN "PRO-CTCAE_rash",
    presence := some true, raw_text := some (strN "rash") }

/-- The taxonomy item for dyspnea. -/
def dyspneaItem : ProCtcaeItem :=
  { symptom_term := strN "Shortness of breath", code := strN "PRO-CTCAE_dyspnea",
    attributes := [.severity, .interference],
    description := strN "Dyspnea (shortness of breath)" }

/-- The entry built for a reported "dyspnea" in an empty context. -/
def dyspneaEntry : ProCtcaeEntry :=
  { symptom_term := strN "Shortness of breath", code := strN "PRO-CTCAE_dyspnea",
    severity := some 1, interference := some 1, raw_text := some (strN "dyspnea") }

/-- A summary with concerns about the dye and no reported symptoms. -/
def concernsData : PatientData :=
  { patient_concerns := strN "I have concerns about the dye" }

/-- A completed session holding one assistant message. -/
def completedSession : ConversationSession :=
  { session_id := 7, status := .completed,
    messages := [⟨strN "assistant", strN "hi"⟩], updated_at := 10 }

/-- A store holding only `completedSession`. -/
def completedStore : Store := [(7, completedSession)]

/-- A user message. -/
def userMsg : Message := ⟨strN "user", strN "hello"⟩

/-- A fresh active session. -/
def activeSession : ConversationSession := { session_id := 3 }

/-- A store holding only `activeSession`. -/
def activeStore : Store := [(3, activeSession)]

/-- A summary-generation oracle that succeeds with fixed data. -/
def genOk : ConversationSession → Option PData × Option PData × Option (List Nat) :=
  fun _ => (some (strN "pd"), some (strN "cd"), none)

/-- `activeSession` after `end_conversation` completes it at time 5 with
the data produced by `genOk`. -/
def sessionAfterEnd : ConversationSession :=
  { activeSession with
    status := .completed
    patient_data := some (strN "pd")
    pro_ctcae_data := some (strN "cd")
    updated_at := 5 }

/-- The store after `end_conversation` completes `activeSession` at time 5
with the data produced by `genOk`. -/
def completedStoreAfter : Store := [(3, sessionAfterEnd)]

/-- A session last updated at time 10. -/
def oldSession : ConversationSession := { session_id := 1, updated_at := 10 }

/-- A store holding only `oldSession`. -/
def oldStore : Store := [(1, oldSession)]

/-! ## Helper lemmas -/

theorem lowerC_idem (c : Nat) : lowerC (lowerC c) = lowerC c := by
  unfold lowerC
  by_cases h : 65 ≤ c ∧ c ≤ 90
  · simp only [if_pos h]
    have : ¬ (65 ≤ c + 32 ∧ c + 32 ≤ 90) := by omega
    simp only [if_neg this]
  · simp only [if_neg h]

theorem isSpaceC_lowerC (c : Nat) : isSpaceC (lowerC c) = isSpaceC c := by
  unfold lowerC isSpaceC
  by_cases h : 65 ≤ c ∧ c ≤ 90
  · simp only [if_pos h]
    exact decide_eq_decide.mpr (by omega)
  · simp only [if_neg h]

theorem lowerL_idem (s : List Nat) : lowerL (lowerL s) = lowerL s := by
  unfold lowerL
  rw [List.map_map]
  exact List.map_congr_left fun c _ => lowerC_idem c

theorem dropWhile_lowerL (s : List Nat) :
    List.dropWhile isSpaceC (lowerL s) = lowerL (List.dropWhile isSpaceC s) := by
  induction s with
  | nil => rfl
  | cons c rest ih =>
    show List.dropWhile isSpaceC (lowerC c :: lowerL rest)
        = lowerL (List.dropWhile isSpaceC (c :: rest))
    rw [List.dropWhile_cons, List.dropWhile_cons, isSpaceC_lowerC]
    by_cases h : isSpaceC c = true
    · simp only [h, if_pos rfl]; exact ih
    · simp only [h]; rfl

theorem reverse_lowerL (s : List Nat) : (lowerL s).reverse = lowerL s.reverse := by
  unfold lowerL
  exact (List.map_reverse lowerC s).symm

theorem trimL_lowerL (s : List Nat) : trimL (lowerL s) = lowerL (trimL s) := by
  unfold trimL
  rw [dropWhile_lowerL, reverse_lowerL, dropWhile_lowerL, reverse_lowerL]

theorem dropWhile_idem (p : Nat → Bool) (l : List Nat) :
    List.dropWhile p (List.dropWhile p l) = List.dropWhile p l := by
  induction l with
  | nil => rfl
  | cons c rest ih =>
    by_cases h : p c = true
    · simp [List.dropWhile_cons, h, ih]
    · simp [List.dropWhile_cons, h]

theorem dropWhile_append (p : Nat → Bool) (l1 l2 : List Nat) :
    List.dropWhile p (l1 ++ l2) =
      if (List.dropWhile p l1).isEmpty then List.dropWhile p l2
      else List.dropWhile p l1 ++ l2 := by
  induction l1 with
  | nil => simp
  | cons a l1 ih =>
    by_cases h : p a = true
    · simpa [List.dropWhile_cons, h] using ih
    · simp [List.dropWhile_cons, h]

theorem trimL_eq (s : List Nat) : trimL s = rtrimW (ltrimW s) := rfl

theorem ltrimW_idem (s : List Nat) : ltrimW (ltrimW s) = ltrimW s :=
  dropWhile_idem isSpaceC s

theorem rtrimW_idem (s : List Nat) : rtrimW (rtrimW s) = rtrimW s := by
  unfold rtrimW
  rw [List.reverse_reverse, dropWhile_idem]

/-- A list whose head is not whitespace right-trims to either the same
head or nothing; in fact the head always survives. -/
theorem rtrimW_cons (c : Nat) (m : List Nat) (h : isSpaceC c = false) :
    ∃ t : List Nat, rtrimW (c :: m) = c :: t := by
  unfold rtrimW
  rw [List.reverse_cons, dropWhile_append]
  by_cases he : (List.dropWhile isSpaceC m.reverse).isEmpty = true
  · refine ⟨[], ?_⟩
    simp [he, List.dropWhile_cons, h]
  · refine ⟨(List.dropWhile isSpaceC m.reverse).reverse, ?_⟩
    simp [he]

/-- Right-trimming preserves the absence of leading whitespace. -/
theorem ltrimW_rtrimW (y : List Nat) (h : ltrimW y = y) :
    ltrimW (rtrimW y) = rtrimW y := by
  cases y with
  | nil => rfl
  | cons c m =>
    have hc : isSpaceC c = false := by
      by_contra hcc
      have hc2 : isSpaceC c = true := by
        cases hx : isSpaceC c
        · exact absurd hx hcc
        · rfl
      have h1 : ltrimW (c :: m) = ltrimW m := by
        unfold ltrimW
        simp [List.dropWhile_cons, hc2]
      rw [h1] at h
      have : (List.dropWhile isSpaceC m).length ≤ m.length :=
        (List.dropWhile_sublist isSpaceC).length_le
      have : (ltrimW m).length = (c :: m).length := by rw [h]
      unfold ltrimW at this
      simp at this
      omega
    obtain ⟨t, ht⟩ := rtrimW_cons c m hc
    rw [ht]
    unfold ltrimW
    simp [List.dropWhile_cons, hc]

theorem trimL_idem (s : List Nat) : trimL (trimL s) = trimL s := by
  rw [trimL_eq, trimL_eq s]
  rw [ltrimW_rtrimW (ltrimW s) (ltrimW_idem s), rtrimW_idem]

theorem normalize_symptom_eq (s : List Nat) :
    normalize_symptom s = alookup symptom_mappings (normKey s) := rfl

theorem normKey_idem (s : List Nat) : normKey (normKey s) = normKey s := by
  unfold normKey
  have h1 : lowerL (trimL (lowerL s)) = trimL (lowerL s) := by
    rw [← trimL_lowerL, lowerL_idem]
  rw [h1, trimL_idem]

theorem findKeyword_none (kws : List (List Nat × Nat)) (t : List Nat)
    (h : ∀ kv ∈ kws, isSubL kv.1 t = false) : findKeyword kws t = none := by
  induction kws with
  | nil => rfl
  | cons kv rest ih =>
    obtain ⟨k, v⟩ := kv
    have hk : isSubL k t = false := h (k, v) (List.mem_cons_self _ _)
    simp only [findKeyword, hk]
    simp only [Bool.false_eq_true, if_false]
    exact ih fun kv2 hm => h kv2 (List.mem_cons_of_mem _ hm)

theorem findKeyword_mem (kws : List (List Nat × Nat)) (t : List Nat) (v : Nat)
    (h : findKeyword kws t = some v) : ∃ kv ∈ kws, kv.2 = v := by
  induction kws with
  | nil => exact absurd h (by simp [findKeyword])
  | cons kv0 rest ih =>
    obtain ⟨k, w⟩ := kv0
    by_cases hk : isSubL k t = true
    · refine ⟨(k, w), List.mem_cons_self _ _, ?_⟩
      simp only [findKeyword, hk, if_true] at h
      exact (Option.some_injective _ h)
    · simp only [findKeyword, hk, if_false] at h
      obtain ⟨kv, hm, hv⟩ := ih h
      exact ⟨kv, List.mem_cons_of_mem _ hm, hv⟩

/-- `findKeyword` returns the value of the first matching keyword: the list
splits at a matching pair all of whose predecessors fail to match. -/
theorem findKeyword_split (kws : List (List Nat × Nat)) (t : List Nat)
    (h : ∃ kv ∈ kws, isSubL kv.1 t = true) :
    ∃ pre kv post, kws = pre ++ kv :: post ∧ isSubL kv.1 t = true ∧
      (∀ kv2 ∈ pre, isSubL kv2.1 t = false) ∧ findKeyword kws t = some kv.2 := by
  induction kws with
  | nil => simp at h
  | cons kv0 rest ih =>
    obtain ⟨k, v⟩ := kv0
    by_cases hk : isSubL k t = true
    · refine ⟨[], (k, v), rest, rfl, hk, by simp, ?_⟩
      simp [findKeyword, hk]
    · have hrest : ∃ kv ∈ rest, isSubL kv.1 t = true := by
        obtain ⟨kv, hm, hs⟩ := h
        rcases List.mem_cons.mp hm with he | hm2
        · rw [he] at hs; exact absurd hs hk
        · exact ⟨kv, hm2, hs⟩
      obtain ⟨pre, kv, post, heq, hs, hpre, hfind⟩ := ih hrest
      refine ⟨(k, v) :: pre, kv, post, by rw [heq]; rfl, hs, ?_, ?_⟩
      · intro kv2 hm
        rcases List.mem_cons.mp hm with he | hm2
        · rw [he]
          cases hx : isSubL k t
          · rfl
          · exact absurd hx hk
        · exact hpre kv2 hm2
      · simp only [findKeyword, hk, if_false]
        exact hfind

theorem loopSymptoms_eq (d : PatientData) (l : List (List Nat))
    (acc : List ProCtcaeEntry) :
    loopSymptoms d l acc = acc ++ l.filterMap (fun s => entryFor s d) := by
  induction l generalizing acc with
  | nil => simp [loopSymptoms]
  | cons s rest ih =>
    cases he : entryFor s d with
    | none => simp [loopSymptoms, he, ih]
    | some e => simp [loopSymptoms, he, ih]

theorem parse_eq (d : PatientData) :
    parse_patient_json d
      = d.reported_symptoms.filterMap (fun s => entryFor s d)
        ++ (if concernsTrigger d.patient_concerns then [anxiety_entry] else []) := by
  unfold parse_patient_json
  rw [loopSymptoms_eq]
  by_cases h : concernsTrigger d.patient_concerns = true
  · simp [h]
  · simp [h]

theorem alookup_aset_self (st : Store) (id : Nat) (s : ConversationSession) :
    alookup (aset st id s) id = some s := by
  induction st with
  | nil => simp [aset, alookup]
  | cons p rest ih =>
    obtain ⟨k, v⟩ := p
    by_cases h : k = id
    · simp [aset, h, alookup]
    · simp [aset, h, alookup, ih]

theorem foldl_applyKwarg_filter (kwargs : List Kwarg) (s : ConversationSession) :
    kwargs.foldl applyKwarg s = (kwargs.filter isKnownKwarg).foldl applyKwarg s := by
  induction kwargs generalizing s with
  | nil => rfl
  | cons k rest ih =>
    cases k with
    | unknown n => simp [List.filter_cons, isKnownKwarg, applyKwarg, ih]
    | session_id v => simp [List.filter_cons, isKnownKwarg, ih]
    | messages v => simp [List.filter_cons, isKnownKwarg, ih]
    | status v => simp [List.filter_cons, isKnownKwarg, ih]
    | created_at v => simp [List.filter_cons, isKnownKwarg, ih]
    | updated_at v => simp [List.filter_cons, isKnownKwarg, ih]
    | patient_data v => simp [List.filter_cons, isKnownKwarg, ih]
    | pro_ctcae_data v => simp [List.filter_cons, isKnownKwarg, ih]
    | error_message v => simp [List.filter_cons, isKnownKwarg, ih]

theorem cleanupLoop_eq (cutoff : Int) (st : Store) :
    cleanupLoop cutoff st
      = (st.filter fun p => decide (cutoff ≤ p.2.updated_at),
         (st.filter fun p => decide (p.2.updated_at < cutoff)).length) := by
  induction st with
  | nil => rfl
  | cons p rest ih =>
    obtain ⟨k, s⟩ := p
    by_cases h : s.updated_at < cutoff
    · have h2 : ¬ cutoff ≤ s.updated_at := by omega
      simp [cleanupLoop, h, h2, ih, List.filter_cons]
    · have h2 : cutoff ≤ s.updated_at := by omega
      simp [cleanupLoop, h, h2, ih, List.filter_cons]

/-- Generic inverse of association-list lookup: a successful lookup pair
is a member of the list. -/
theorem alookup_mem {κ α : Type} [DecidableEq κ] (l : List (κ × α)) (k : κ)
    (v : α) (h : alookup l k = some v) : (k, v) ∈ l := by
  induction l with
  | nil => exact absurd h (by simp [alookup])
  | cons p rest ih =>
    obtain ⟨k0, v0⟩ := p
    by_cases hk : k0 = k
    · subst hk
      simp only [alookup, if_pos rfl] at h
      rw [Option.some_injective _ h]
      exact List.mem_cons_self _ _
    · simp only [alookup, if_neg hk] at h
      exact List.mem_cons_of_mem _ (ih h)

/-- Generic failure case of association-list lookup: a key that is not
among the list's keys looks up to `none`. -/
theorem alookup_eq_none {κ α : Type} [DecidableEq κ] (l : List (κ × α)) (k : κ)
    (h : k ∉ l.map Prod.fst) : alookup l k = none := by
  induction l with
  | nil => rfl
  | cons p rest ih =>
    obtain ⟨k0, v0⟩ := p
    simp only [List.map_cons, List.mem_cons, not_or] at h
    obtain ⟨h1, h2⟩ := h
    have hne : k0 ≠ k := fun he => h1 he.symm
    simp only [alookup, if_neg hne]
    exact ih h2

/-- The anxiety-trigger boolean unfolded to the spec's three conditions. -/
theorem concernsTrigger_iff (c : List Nat) :
    concernsTrigger c = true ↔
      (c ≠ [] ∧ isSubL (strN "concern") (lowerL c) = true
        ∧ lowerL c ≠ strN "no concerns") := by
  simp [concernsTrigger, Bool.and_eq_true, decide_eq_true_iff, and_assoc]

/-! ## Claim theorems -/

/-- C1 counterexample: the context whose full summary is the text
"very severe" contains the severity keyword "very severe", whose level in
the precedence table is 4 (and the highest-priority matching keyword per
the spec's precedence order is "very severe" with level 4), yet
`estimate_severity` returns 3, because the code checks "severe" before
"very severe" in dict insertion order.  So the result is not the
higher-priority level from the table. -/
theorem c1_counterexample :
    isSubL (strN "very severe") (lowerL ctxVerySevere.full_summary) = true
    ∧ findKeyword specSeverityTable (lowerL ctxVerySevere.full_summary) = some 4
    ∧ estimate_severity (strN "itching") ctxVerySevere = 3 := by
  refine ⟨by decide, by decide, by decide⟩

/-- C1 (amended): when at least one severity keyword occurs in the
lower-cased full summary, `estimate_severity` returns the level of the
first matching keyword in the code's check order (mild, moderate, severe,
very severe, slight, bad, terrible, extreme) — the keyword list splits at
a matching pair all of whose predecessors do not match, and the result is
that pair's level; position in the text is irrelevant. -/
theorem c1_amended (s : List Nat) (ctx : PatientData)
    (h : ∃ kv ∈ severity_keywords, isSubL kv.1 (lowerL ctx.full_summary) = true) :
    ∃ pre kv post, severity_keywords = pre ++ kv :: post
      ∧ isSubL kv.1 (lowerL ctx.full_summary) = true
      ∧ (∀ kv2 ∈ pre, isSubL kv2.1 (lowerL ctx.full_summary) = false)
      ∧ estimate_severity s ctx = kv.2 := by
  obtain ⟨pre, kv, post, heq, hs, hpre, hfind⟩ := findKeyword_split _ _ h
  exact ⟨pre, kv, post, heq, hs, hpre, by simp [estimate_severity, hfind]⟩

/-- C1 amended witness at the "very severe" context. -/
theorem c1_amended_witness :
    ∃ pre kv post, severity_keywords = pre ++ kv :: post
      ∧ isSubL kv.1 (lowerL ctxVerySevere.full_summary) = true
      ∧ (∀ kv2 ∈ pre, isSubL kv2.1 (lowerL ctxVerySevere.full_summary) = false)
      ∧ estimate_severity (strN "itching") ctxVerySevere = kv.2 :=
  c1_amended (strN "itching") ctxVerySevere
    ⟨(strN "severe", 3), by decide, by decide⟩

/-- C2 counterexample: the summary reporting "rash" twice has exactly one
distinct mapped symptom, yet the mapper produces two (identical) entries,
so the entry list does not contain exactly one entry per distinct mapped
symptom. -/
theorem c2_counterexample :
    dupRashData.reported_symptoms = [strN "rash", strN "rash"]
    ∧ parse_patient_json dupRashData = [rashEntry, rashEntry]
    ∧ concernsTrigger dupRashData.patient_concerns = false := by
  refine ⟨by decide, by decide, by decide⟩

/-- C2 (amended): for every patient summary, the entry list contains
exactly one entry per occurrence of a mapped symptom in
`reported_symptoms` (duplicates included), in the original encounter
order, plus at most one trailing synthesized anxiety entry appended last,
present iff the concerns trigger condition holds; no other entries
appear. -/
theorem c2_amended (d : PatientData) :
    parse_patient_json d
      = d.reported_symptoms.filterMap (fun s => entryFor s d)
        ++ (if concernsTrigger d.patient_concerns then [anxiety_entry] else []) :=
  parse_eq d

/-- C7: `normalize_symptom` is invariant under lower-casing plus
trimming — for every string it agrees with its value on the lower-cased,
trimmed form, so "ITCHY " and "itchy" normalize alike — and for every
string whose lower-cased, trimmed form is absent from the alias table's
keys (such as "banana"), it returns `none` rather than raising or
fuzzy-matching. -/
theorem c7_normalize_invariance :
    (∀ s : List Nat, normalize_symptom s = normalize_symptom (trimL (lowerL s)))
    ∧ (∀ s : List Nat, trimL (lowerL s) ∉ symptom_mappings.map Prod.fst →
        normalize_symptom s = none)
    ∧ normalize_symptom (strN "ITCHY ") = normalize_symptom (strN "itchy")
    ∧ normalize_symptom (strN "ITCHY ") = some (strN "itching")
    ∧ normalize_symptom (strN "banana") = none := by
  refine ⟨fun s => ?_, fun s h => ?_, by decide, by decide, by decide⟩
  · rw [normalize_symptom_eq, normalize_symptom_eq]
    show alookup symptom_mappings (normKey s)
      = alookup symptom_mappings (normKey (normKey s))
    rw [normKey_idem]
  · exact alookup_eq_none symptom_mappings _ h

/-- C7 witness: "banana" lower-cased and trimmed is not an alias-table
key, and the unmapped-input conjunct applied there returns `none`. -/
theorem c7_witness :
    trimL (lowerL (strN "banana")) ∉ symptom_mappings.map Prod.fst
    ∧ normalize_symptom (strN "banana") = none :=
  ⟨by decide, c7_normalize_invariance.2.1 (strN "banana") (by decide)⟩

/-- C3: with no severity keyword anywhere in the lower-cased full summary,
`estimate_severity` returns 2 when a prior adverse reaction is recorded
and the symptom normalizes to a member of the critical subset, returns 1
when a prior reaction exists but the symptom is not critical, and returns
1 otherwise; and on every input whatsoever it never returns 0. -/
theorem c3_severity_defaults :
    (∀ (s : List Nat) (ctx : PatientData),
        (∀ kv ∈ severity_keywords, isSubL kv.1 (lowerL ctx.full_summary) = false) →
        ctx.has_previous_reaction = true →
        (∃ k, normalize_symptom s = some k ∧ k ∈ critical_symptoms) →
        estimate_severity s ctx = 2)
    ∧ (∀ (s : List Nat) (ctx : PatientData),
        (∀ kv ∈ severity_keywords, isSubL kv.1 (lowerL ctx.full_summary) = false) →
        ctx.has_previous_reaction = true →
        (¬ ∃ k, normalize_symptom s = some k ∧ k ∈ critical_symptoms) →
        estimate_severity s ctx = 1)
    ∧ (∀ (s : List Nat) (ctx : PatientData),
        (∀ kv ∈ severity_keywords, isSubL kv.1 (lowerL ctx.full_summary) = false) →
        ctx.has_previous_reaction = false →
        estimate_severity s ctx = 1)
    ∧ (∀ (s : List Nat) (ctx : PatientData), estimate_severity s ctx ≠ 0) := by
  refine ⟨?_, ?_, ?_, ?_⟩
  · intro s ctx hkw hp hcrit
    obtain ⟨k, hk, hmem⟩ := hcrit
    have hfk := findKeyword_none severity_keywords _ hkw
    simp [estimate_severity, hfk, hp, hk, hmem]
  · intro s ctx hkw hp hncrit
    have hfk := findKeyword_none severity_keywords _ hkw
    cases hn : normalize_symptom s with
    | none => simp [estimate_severity, hfk, hp, hn]
    | some k =>
      have hmem : k ∉ critical_symptoms := fun hm => hncrit ⟨k, hn, hm⟩
      simp [estimate_severity, hfk, hp, hn, hmem]
  · intro s ctx hkw hp
    have hfk := findKeyword_none severity_keywords _ hkw
    simp [estimate_severity, hfk, hp]
  · intro s ctx
    cases hf : findKeyword severity_keywords (lowerL ctx.full_summary) with
    | some v =>
      obtain ⟨kv, hm, hv⟩ := findKeyword_mem _ _ _ hf
      have hall : ∀ kv ∈ severity_keywords, kv.2 ≠ 0 := by decide
      have : v ≠ 0 := hv ▸ hall kv hm
      simp [estimate_severity, hf, this]
    | none =>
      cases hp : ctx.has_previous_reaction with
      | false => simp [estimate_severity, hf, hp]
      | true =>
        cases hn : normalize_symptom s with
        | none => simp [estimate_severity, hf, hp, hn]
        | some k =>
          by_cases hmem : k ∈ critical_symptoms
          · simp [estimate_severity, hf, hp, hn, hmem]
          · simp [estimate_severity, hf, hp, hn, hmem]

/-- C3 witness: critical symptom with prior reaction gives 2; non-critical
with prior reaction gives 1; no prior reaction gives 1; never 0. -/
theorem c3_witness :
    estimate_severity (strN "dyspnea") ctxPrev = 2
    ∧ estimate_severity (strN "itchy") ctxPrev = 1
    ∧ estimate_severity (strN "itchy") ctxNoPrev = 1
    ∧ estimate_severity (strN "itchy") ctxNoPrev ≠ 0 := by
  refine ⟨?_, ?_, ?_, ?_⟩
  · exact c3_severity_defaults.1 (strN "dyspnea") ctxPrev (by decide) (by decide)
      ⟨strN "shortness_of_breath", by decide, by decide⟩
  · refine c3_severity_defaults.2.1 (strN "itchy") ctxPrev (by decide) (by decide) ?_
    intro h
    obtain ⟨k, hk, hmem⟩ := h
    have he : normalize_symptom (strN "itchy") = some (strN "itching") := by decide
    rw [he] at hk
    have hik : strN "itching" = k := Option.some_injective _ hk
    rw [← hik] at hmem
    revert hmem
    decide
  · exact c3_severity_defaults.2.2.1 (strN "itchy") ctxNoPrev (by decide) (by decide)
  · exact c3_severity_defaults.2.2.2 (strN "itchy") ctxNoPrev

/-- C4: whenever a reported symptom normalizes to a canonical key whose
taxonomy item is found, the entry the loop builds populates exactly the
attribute fields the item declares: each of severity, frequency,
interference and presence is set iff the corresponding attribute is in
the item's attribute list. -/
theorem c4_attribute_fields (s : List Nat) (d : PatientData) (k : List Nat)
    (item : ProCtcaeItem) (e : ProCtcaeEntry)
    (h1 : normalize_symptom s = some k)
    (h2 : alookup pro_ctcae_items k = some item)
    (h3 : entryFor s d = some e) :
    (e.severity.isSome = true ↔ Attr.severity ∈ item.attributes)
    ∧ (e.frequency.isSome = true ↔ Attr.frequency ∈ item.attributes)
    ∧ (e.interference.isSome = true ↔ Attr.interference ∈ item.attributes)
    ∧ (e.presence.isSome = true ↔ Attr.presence ∈ item.attributes) := by
  have htab : ∀ p ∈ pro_ctcae_items,
      Attr.interference ∈ p.2.attributes → Attr.severity ∈ p.2.attributes := by
    decide
  have hsev_of_int : Attr.interference ∈ item.attributes →
      Attr.severity ∈ item.attributes :=
    htab (k, item) (alookup_mem _ _ _ h2)
  simp only [entryFor, h1, h2, Option.some_inj] at h3
  subst h3
  refine ⟨?_, ?_, ?_, ?_⟩
  · by_cases hs : Attr.severity ∈ item.attributes <;> simp [hs]
  · by_cases hs : Attr.frequency ∈ item.attributes <;> simp [hs]
  · by_cases hi : Attr.interference ∈ item.attributes
    · have hs := hsev_of_int hi
      simp [hi, hs]
    · simp [hi]
  · by_cases hs : Attr.presence ∈ item.attributes <;> simp [hs]

/-- C4 witness at the reported symptom "dyspnea". -/
theorem c4_witness :
    (dyspneaEntry.severity.isSome = true ↔ Attr.severity ∈ dyspneaItem.attributes)
    ∧ (dyspneaEntry.frequency.isSome = true ↔ Attr.frequency ∈ dyspneaItem.attributes)
    ∧ (dyspneaEntry.interference.isSome = true
        ↔ Attr.interference ∈ dyspneaItem.attributes)
    ∧ (dyspneaEntry.presence.isSome = true ↔ Attr.presence ∈ dyspneaItem.attributes) :=
  c4_attribute_fields (strN "dyspnea") {} (strN "shortness_of_breath")
    dyspneaItem dyspneaEntry (by decide) (by decide) (by decide)

/-- C5: a synthesized anxiety entry is appended, last, iff
`patient_concerns` is non-empty, contains the substring "concern"
(case-insensitively) and is not literally the phrase "no concerns"
case-insensitively; the synthesized entry has exactly severity 1,
frequency 2, interference 1 and raw text "Patient expressed concerns";
and the summary whose concerns are "I have concerns about the dye" with
no reported symptoms yields exactly that one entry. -/
theorem c5_anxiety_trigger :
    (∀ d : PatientData,
        parse_patient_json d
          = d.reported_symptoms.filterMap (fun s => entryFor s d)
            ++ (if d.patient_concerns ≠ []
                  ∧ isSubL (strN "concern") (lowerL d.patient_concerns) = true
                  ∧ lowerL d.patient_concerns ≠ strN "no concerns"
                then [anxiety_entry] else []))
    ∧ anxiety_entry
        = { symptom_term := strN "Anxious", code := strN "PRO-CTCAE_anxiety",
            severity := some 1, frequency := some 2, interference := some 1,
            presence := none, raw_text := some (strN "Patient expressed concerns") }
    ∧ parse_patient_json concernsData = [anxiety_entry] := by
  refine ⟨fun d => ?_, by decide, by decide⟩
  rw [parse_eq d]
  congr 1
  exact if_congr (concernsTrigger_iff d.patient_concerns) rfl rfl

/-- C6 counterexample: on a store holding a `completed` session, the
store-level append operation is not rejected — it returns `true`, appends
the message and refreshes `updated_at`, changing the session. -/
theorem c6_counterexample :
    completedSession.status = Status.completed
    ∧ (add_message completedStore 7 userMsg 11).2 = true
    ∧ get_session (add_message completedStore 7 userMsg 11).1 7
        = some { completedSession with
                 messages := completedSession.messages ++ [userMsg],
                 updated_at := 11 }
    ∧ completedSession.messages ++ [userMsg] ≠ completedSession.messages := by
  refine ⟨by decide, by decide, by decide, by decide⟩

/-- C6 (amended): the session store itself does not enforce status on
append — `add_message` on a `completed` or `error` session succeeds,
appends and refreshes `updated_at`; the `InvalidState` rejection lives in
the API route `send_message`, which on a non-active session returns the
invalid-state error and leaves the store unchanged. -/
theorem c6_amended (st : Store) (id : Nat) (s : ConversationSession)
    (body : Option (List Nat)) (llm : List Message → ModelResult) (now : Int)
    (h : alookup st id = some s)
    (hs : s.status = Status.completed ∨ s.status = Status.error) :
    send_message st id body llm now = (st, .invalidState s.status)
    ∧ ∀ m : Message,
        (add_message st id m now).2 = true
        ∧ get_session (add_message st id m now).1 id
            = some { s with messages := s.messages ++ [m], updated_at := now } := by
  have hne : s.status ≠ Status.active := by
    rcases hs with h1 | h1 <;> rw [h1] <;> intro hx <;> exact Status.noConfusion hx
  constructor
  · simp [send_message, h, hne]
  · intro m
    exact ⟨by simp [add_message, h], by simp [add_message, h, get_session, alookup_aset_self]⟩

/-- C6 amended witness at the concrete completed store. -/
theorem c6_amended_witness :
    send_message completedStore 7 (some (strN "hello")) (fun _ => ModelResult.empty) 11
      = (completedStore, SendResp.invalidState Status.completed)
    ∧ (add_message completedStore 7 userMsg 11).2 = true
    ∧ get_session (add_message completedStore 7 userMsg 11).1 7
        = some { completedSession with
                 messages := completedSession.messages ++ [userMsg],
                 updated_at := 11 } := by
  have h := c6_amended completedStore 7 completedSession (some (strN "hello"))
    (fun _ => ModelResult.empty) 11 (by decide) (Or.inl (by decide))
  exact ⟨h.1, (h.2 userMsg).1, (h.2 userMsg).2⟩

/-- C8: `end_conversation` on an already-completed session returns the
stored `patient_data`/`pro_ctcae_data` without invoking the model
collaborator and without touching the store; consequently a second call
after a successful completion returns data identical to the first call's,
with the collaborator-invoked flag `false` and the store unchanged. -/
theorem c8_end_idempotent :
    (∀ (st : Store) (id : Nat) (s : ConversationSession)
        (gen : ConversationSession → Option PData × Option PData × Option (List Nat))
        (now : Int),
        alookup st id = some s → s.status = Status.completed →
        end_conversation st id gen now
          = (st, .ok s.patient_data s.pro_ctcae_data, false))
    ∧ (∀ (st : Store) (id : Nat)
        (gen : ConversationSession → Option PData × Option PData × Option (List Nat))
        (now : Int) (st1 : Store) (pd cd : Option PData)
        (gen2 : ConversationSession → Option PData × Option PData × Option (List Nat))
        (now2 : Int),
        end_conversation st id gen now = (st1, .ok pd cd, true) →
        end_conversation st1 id gen2 now2 = (st1, .ok pd cd, false)) := by
  constructor
  · intro st id s gen now h hc
    simp [end_conversation, h, hc]
  · intro st id gen now st1 pd cd gen2 now2 h
    cases hl : alookup st id with
    | none => simp [end_conversation, hl] at h
    | some s =>
      by_cases hc : s.status = Status.completed
      · simp [end_conversation, hl, hc] at h
      · cases hg : (gen s).2.2 with
        | some e => simp [end_conversation, hl, hc, hg] at h
        | none =>
          simp only [end_conversation, hl, hc, hg, if_false, Prod.mk.injEq,
            EndResp.ok.injEq] at h
          obtain ⟨hst1, ⟨hpd, hcd⟩, -⟩ := h
          subst hpd
          subst hcd
          have hu : (update_session st id
              [Kwarg.status .completed, Kwarg.patient_data (gen s).1,
               Kwarg.pro_ctcae_data (gen s).2.1] now).1
            = aset st id
                { s with
                  status := .completed
                  patient_data := (gen s).1
                  pro_ctcae_data := (gen s).2.1
                  updated_at := now } := by
            simp [update_session, hl, applyKwarg]
          rw [hu] at hst1
          subst hst1
          have hlk := alookup_aset_self st id
            { s with
              status := .completed
              patient_data := (gen s).1
              pro_ctcae_data := (gen s).2.1
              updated_at := now }
          simp [end_conversation, hlk]

/-- C8 witness: completing the fresh active store and calling again. -/
theorem c8_witness :
    end_conversation completedStoreAfter 3 genOk 9
      = (completedStoreAfter, .ok (some (strN "pd")) (some (strN "cd")), false) :=
  c8_end_idempotent.2 activeStore 3 genOk 5 completedStoreAfter
    (some (strN "pd")) (some (strN "cd")) genOk 9 rfl

/-- C9: cleanup removes exactly the sessions whose `updated_at` precedes
`now` minus the max age (keeping the rest in place) and returns the count
removed; with `max_age_hours = 0` it removes every session updated
strictly before `now` (i.e. every session regardless of recency), and
with a max age large enough that the cutoff does not exceed any
session's `updated_at` it removes none. -/
theorem c9_cleanup (st : Store) (max_age_hours : Nat) (now : Int) :
    cleanup_old_sessions st max_age_hours now
      = (st.filter fun p => decide (now - (max_age_hours : Int) * 3600 ≤ p.2.updated_at),
         (st.filter fun p =>
            decide (p.2.updated_at < now - (max_age_hours : Int) * 3600)).length)
    ∧ ((∀ p ∈ st, p.2.updated_at < now) →
        cleanup_old_sessions st 0 now = ([], st.length))
    ∧ ((∀ p ∈ st, now - (max_age_hours : Int) * 3600 ≤ p.2.updated_at) →
        cleanup_old_sessions st max_age_hours now = (st, 0)) := by
  refine ⟨cleanupLoop_eq _ st, ?_, ?_⟩
  · intro h
    unfold cleanup_old_sessions
    rw [cleanupLoop_eq]
    have h0 : now - ((0 : Nat) : Int) * 3600 = now := by simp
    rw [h0]
    have hA : (st.filter fun p => decide (now ≤ p.2.updated_at)) = [] := by
      rw [List.filter_eq_nil_iff]
      intro p hp
      have := h p hp
      simp only [decide_eq_true_iff]
      omega
    have hB : (st.filter fun p => decide (p.2.updated_at < now)) = st := by
      rw [List.filter_eq_self]
      intro p hp
      exact decide_eq_true (h p hp)
    rw [hA, hB]
  · intro h
    unfold cleanup_old_sessions
    rw [cleanupLoop_eq]
    have hA : (st.filter fun p =>
        decide (now - (max_age_hours : Int) * 3600 ≤ p.2.updated_at)) = st := by
      rw [List.filter_eq_self]
      intro p hp
      exact decide_eq_true (h p hp)
    have hB : (st.filter fun p =>
        decide (p.2.updated_at < now - (max_age_hours : Int) * 3600)) = [] := by
      rw [List.filter_eq_nil_iff]
      intro p hp
      have := h p hp
      simp only [decide_eq_true_iff]
      omega
    rw [hA, hB]
    rfl

/-- C9 witness: a store with one session updated at time 10, cleaned at
time 100: max age 0 removes it, max age 5 hours keeps it. -/
theorem c9_witness :
    cleanup_old_sessions oldStore 0 100 = ([], 1)
    ∧ cleanup_old_sessions oldStore 5 100 = (oldStore, 0) := by
  constructor
  · have h := (c9_cleanup oldStore 0 100).2.1 (by decide)
    simpa using h
  · exact (c9_cleanup oldStore 5 100).2.2 (by decide)

/-- C10: for an existing session id, `update_session` returns `true`,
behaves identically with and without keyword arguments whose names match
no session attribute (unknown names are silently dropped, the rest of the
update proceeds), applies exactly the matching keyword arguments in
order, and always refreshes `updated_at` to the current time. -/
theorem c10_update_kwargs (st : Store) (id : Nat) (kwargs : List Kwarg)
    (now : Int) (s : ConversationSession) (h : alookup st id = some s) :
    (update_session st id kwargs now).2 = true
    ∧ update_session st id kwargs now
        = update_session st id (kwargs.filter isKnownKwarg) now
    ∧ get_session (update_session st id kwargs now).1 id
        = some { kwargs.foldl applyKwarg s with updated_at := now } := by
  refine ⟨by simp [update_session, h], ?_, ?_⟩
  · simp only [update_session, h]
    rw [foldl_applyKwarg_filter]
  · simp [update_session, h, get_session, alookup_aset_self]

/-- C10 witness: a misspelled field name is dropped with no signal while
the valid status update and the `updated_at` refresh still happen. -/
theorem c10_witness :
    (update_session oldStore 1
        [Kwarg.status Status.error, Kwarg.unknown (strN "staus")] 50).2 = true
    ∧ update_session oldStore 1
        [Kwarg.status Status.error, Kwarg.unknown (strN "staus")] 50
        = update_session oldStore 1 [Kwarg.status Status.error] 50
    ∧ get_session (update_session oldStore 1
        [Kwarg.status Status.error, Kwarg.unknown (strN "staus")] 50).1 1
        = some { oldSession with
                 status := Status.error,
                 updated_at := 50 } := by
  have h := c10_update_kwargs oldStore 1
    [Kwarg.status Status.error, Kwarg.unknown (strN "staus")] 50 oldSession
    (by decide)
  exact ⟨h.1, h.2.1, h.2.2⟩
